import Mathlib

/-!
Verification of the netgearcli switch authentication and session-management
layer.  The Go source (poe-management example, pkg/netgear client) is embedded
shallowly: network exchanges become explicit result sequences indexed by call
counts, the token cache becomes a set of file paths, and the global mutable
state (loginAttempted, globalOpts) becomes explicit state threading.
-/

set_option maxRecDepth 10000
set_option maxHeartbeats 1000000

/-- Embeds Go strings.Contains: substr occurs contiguously inside s. -/
def stringsContains (s substr : String) : Bool :=
  decide (substr.toList <:+: s.toList)

/-- UTF-8 byte sequence of a string, as natural numbers, mirroring what Go
io.WriteString feeds to a hash. -/
def utf8Bytes (s : String) : List Nat :=
  (s.data.flatMap String.utf8EncodeChar).map UInt8.toNat

/-- One step of the Adler-32 rolling checksum (hash/adler32): a is the running
byte sum, b the running sum of a, both modulo 65521. -/
def adlerStep (ab : Nat × Nat) (x : Nat) : Nat × Nat :=
  let a := (ab.1 + x) % 65521
  (a, (ab.2 + a) % 65521)

/-- Adler-32 checksum of a host string, as computed by hash/adler32 on the
UTF-8 bytes: final value b * 65536 + a with initial state (1, 0). -/
def adler32 (host : String) : Nat :=
  ((utf8Bytes host).foldl adlerStep (1, 0)).2 * 65536 +
    ((utf8Bytes host).foldl adlerStep (1, 0)).1

/-- Lowercase hexadecimal digit for a nibble value. -/
def hexDigit (n : Nat) : Char :=
  if n < 10 then Char.ofNat (48 + n) else Char.ofNat (87 + n)

/-- Two lowercase hex digits of one byte, as fmt.Sprintf %x renders each byte. -/
def byteToHex (b : Nat) : List Char :=
  [hexDigit (b / 16 % 16), hexDigit (b % 16)]

/-- Big-endian byte decomposition of a 32-bit checksum, as hash32.Sum(nil)
produces it. -/
def hashHexBytes (h : Nat) : List Nat :=
  [h / 16777216 % 256, h / 65536 % 256, h / 256 % 256, h % 256]

/-- Lowercase hex rendering of a byte list (Go fmt.Sprintf "%x" on a byte
slice): two hex digits per byte, concatenated. -/
def bytesToHex (l : List Nat) : String :=
  String.mk (l.foldr (fun b acc => byteToHex b ++ acc) [])

/-- Embeds getTokenPath from the poe-management example: the cache path is
configDir (or the temp dir when empty), then /.config/ntgrrc/token- followed by
the Adler-32 hash of the host rendered as hex. -/
def getTokenPath (tmpDir configDir host : String) : String :=
  let hash := bytesToHex (hashHexBytes (adler32 host))
  let configDir2 := if configDir = "" then tmpDir else configDir
  let dotConfigDir := configDir2 ++ "/.config/ntgrrc"
  dotConfigDir ++ "/token-" ++ hash

/-- The token file path used by removeToken and hasValidToken, both of which
pass os.TempDir() as the config directory. -/
def tokenFilePath (tmpDir address : String) : String :=
  getTokenPath tmpDir tmpDir address

/-- Embeds removeToken acting on the file system, modelled as the set of
existing paths: os.Remove deletes the token file and ignores a missing file. -/
def removeTokenFS (tmpDir address : String) (fs : String → Bool) : String → Bool :=
  fun p => if p = tokenFilePath tmpDir address then false else fs p

/-- Embeds hasValidToken: os.Stat succeeds exactly when the token file exists. -/
def hasValidTokenFS (tmpDir address : String) (fs : String → Bool) : Bool :=
  fs (tokenFilePath tmpDir address)

/-- One network exchange with the switch, as issued by the poe-management
example: an operation request, a login submission, or the lightweight
validation probe issued by validateToken. -/
inductive NetCall where
  | opCall : NetCall
  | loginCall : NetCall
  | probeCall : NetCall
deriving DecidableEq

/-- The fixed surroundings of a run: temp directory, the switch address and
password held in globals, and the switch's responses, given as the result of
the i-th call of each kind (none is success, some e the error text err.Error()
would carry). -/
structure Env where
  tmpDir : String
  host : String
  password : String
  opResult : Nat → Option String
  loginResult : Nat → Option String
  probeResult : Nat → Option String

/-- The mutable state of a run: the loginAttempted global, the file system
holding cached token files, counters for each kind of network call already
issued, the number of performLogin invocations, the ordered trace of network
calls, and the sequence of time.Sleep delays in milliseconds. -/
structure World where
  loginAttempted : Bool
  fs : String → Bool
  opCount : Nat
  loginCount : Nat
  probeCount : Nat
  performLoginCalls : Nat
  trace : List NetCall
  sleeps : List Nat

/-- Running the operation closure once: one network call whose outcome is the
next entry of the op result sequence. -/
def runOp (env : Env) (w : World) : Option String × World :=
  (env.opResult w.opCount,
   { w with opCount := w.opCount + 1, trace := w.trace ++ [NetCall.opCall] })

/-- Embeds the retry loop body of performLogin: run LoginCommand once; on
success set loginAttempted; on failure sleep the next delay and try again, or
give up with the "login failed after 4 attempts" error once delays are
exhausted. -/
def loginAttemptLoop (env : Env) (delays : List Nat) (w : World) : Option String × World :=
  let err := env.loginResult w.loginCount
  let w1 := { w with loginCount := w.loginCount + 1, trace := w.trace ++ [NetCall.loginCall] }
  match err with
  | none => (none, { w1 with loginAttempted := true })
  | some e =>
    match delays with
    | [] => (some ("login failed after 4 attempts: " ++ e), w1)
    | d :: rest => loginAttemptLoop env rest { w1 with sleeps := w1.sleeps ++ [d] }

/-- The retry delays of performLogin: 200ms, 500ms, 1000ms. -/
def retryDelays : List Nat := [200, 500, 1000]

/-- Embeds performLogin from the poe-management example: fail outright without
a password, otherwise run the login attempt loop with the three backoff
delays (one initial attempt plus up to three retries). -/
def performLogin (env : Env) (w : World) : Option String × World :=
  let w1 := { w with performLoginCalls := w.performLoginCalls + 1 }
  if env.password = "" then
    (some "no password available for authentication", w1)
  else
    loginAttemptLoop env retryDelays w1

/-- Embeds removeToken: delete the cached token file of the host from the
file system (os.Remove, its error ignored). -/
def removeToken (env : Env) (w : World) : World :=
  { w with fs := removeTokenFS env.tmpDir env.host w.fs }

/-- Embeds the error classification shared by handleAuthError and
validateToken: the error text indicates the switch wants a login again when it
contains "no content", "login" or "no session". -/
def indicatesLoginRequired (errStr : String) : Bool :=
  stringsContains errStr "no content" || stringsContains errStr "login" ||
    stringsContains errStr "no session"

/-- Embeds handleAuthError: run the closure; on success or on an error not
classified as a login/session problem, return the result as is; otherwise, if
a login already happened this run, wrap the error as an after-re-login
authentication failure, else remove the cached token, perform one re-login and
run the closure a second time, returning that second result. -/
def handleAuthError (env : Env) (w : World) : Option String × World :=
  match runOp env w with
  | (none, w1) => (none, w1)
  | (some e, w1) =>
    if indicatesLoginRequired e then
      if w1.loginAttempted then
        (some ("authentication failed even after re-login: " ++ e), w1)
      else
        let w2 := removeToken env w1
        match performLogin env w2 with
        | (some le, w3) => (some ("re-authentication failed: " ++ le), w3)
        | (none, w3) => runOp env w3
    else (some e, w1)

/-- Embeds the network/classification part of validateToken: one lightweight
PoeStatusCommand probe; the token counts as valid when the probe succeeds or
when its error is not classified as a login/session problem. -/
def validateTokenRun (env : Env) (w : World) : Bool × World :=
  let err := env.probeResult w.probeCount
  let w1 := { w with probeCount := w.probeCount + 1, trace := w.trace ++ [NetCall.probeCall] }
  match err with
  | none => (true, w1)
  | some e => (!indicatesLoginRequired e, w1)

/-- Embeds hasValidToken as called on the globals: the cached token file of
the host exists. -/
def hasValidToken (env : Env) (w : World) : Bool :=
  hasValidTokenFS env.tmpDir env.host w.fs

/-- Embeds ensureAuthenticated: when a cached token file exists, validate it
with the probe; keep it on success, otherwise remove it and log in; without a
cached token, log in directly. -/
def ensureAuthenticated (env : Env) (w : World) : Option String × World :=
  if hasValidToken env w then
    match validateTokenRun env w with
    | (true, w1) => (none, w1)
    | (false, w1) => performLogin env (removeToken env w1)
  else
    performLogin env w

/-- A mocked switch for C1: the first op call reports "no session", login and
every later call succeed. -/
def envW1 : Env :=
  { tmpDir := "/tmp", host := "switch-a", password := "admin123",
    opResult := fun n => if n = 0 then some "no session" else none,
    loginResult := fun _ => none,
    probeResult := fun _ => none }

/-- Initial state for C1: no login yet, the token file cached, nothing issued. -/
def worldW1 : World :=
  { loginAttempted := false, fs := fun _ => true,
    opCount := 0, loginCount := 0, probeCount := 0, performLoginCalls := 0,
    trace := [], sleeps := [] }

/-- A fresh run state: no login yet, every token file present, no calls made. -/
def initialWorld : World :=
  { loginAttempted := false, fs := fun _ => true,
    opCount := 0, loginCount := 0, probeCount := 0, performLoginCalls := 0,
    trace := [], sleeps := [] }

/-- A mocked switch for C2: every op call reports "no session", login itself
succeeds. -/
def envC2 : Env :=
  { tmpDir := "/tmp", host := "switch-a", password := "admin123",
    opResult := fun _ => some "no session",
    loginResult := fun _ => none,
    probeResult := fun _ => none }

/-- A mocked switch for C3: every request, the validation probe included,
succeeds. -/
def envC3 : Env :=
  { tmpDir := "/tmp", host := "switch-a", password := "admin123",
    opResult := fun _ => none,
    loginResult := fun _ => none,
    probeResult := fun _ => none }

/-- A mocked switch for C4: every login attempt is declined as a wrong
credential. -/
def envC4 : Env :=
  { tmpDir := "/tmp", host := "switch-a", password := "admin123",
    opResult := fun _ => none,
    loginResult := fun _ => some "authentication rejected",
    probeResult := fun _ => none }

/-- A mocked switch for C5: the op call fails with an error that carries none
of the session-expiry substrings. -/
def envC5 : Env :=
  { tmpDir := "/tmp", host := "switch-a", password := "admin123",
    opResult := fun _ => some "connection refused",
    loginResult := fun _ => none,
    probeResult := fun _ => none }

/-- Modelled from the spec: the Credential Encoder (spec 4.3) lives in the
external go-netgear library, not in this repository; the spec prescribes
interleaving password and challenge characters.  Characters are taken
alternately from the two strings, leftovers appended. -/
def interleave : List Char → List Char → List Char
  | [], ys => ys
  | xs, [] => xs
  | x :: xs, y :: ys => x :: y :: interleave xs ys

/-- Left rotation of a 32-bit value (inputs already reduced modulo 2^32). -/
def rotl32 (x s : Nat) : Nat :=
  ((x <<< s) + (x >>> (32 - s))) % 4294967296

/-- Bitwise complement within 32 bits. -/
def bnot32 (x : Nat) : Nat := x ^^^ 4294967295

/-- MD5 round function F. -/
def mF (b c d : Nat) : Nat := (b &&& c) ||| (bnot32 b &&& d)

/-- MD5 round function G. -/
def mG (b c d : Nat) : Nat := (d &&& b) ||| (bnot32 d &&& c)

/-- MD5 round function H. -/
def mH (b c d : Nat) : Nat := b ^^^ c ^^^ d

/-- MD5 round function I. -/
def mI (b c d : Nat) : Nat := c ^^^ (b ||| bnot32 d)

/-- The 64 MD5 sine-derived constants. -/
def md5K : List Nat :=
  [0xd76aa478, 0xe8c7b756, 0x242070db, 0xc1bdceee,
   0xf57c0faf, 0x4787c62a, 0xa8304613, 0xfd469501,
   0x698098d8, 0x8b44f7af, 0xffff5bb1, 0x895cd7be,
   0x6b901122, 0xfd987193, 0xa679438e, 0x49b40821,
   0xf61e2562, 0xc040b340, 0x265e5a51, 0xe9b6c7aa,
   0xd62f105d, 0x02441453, 0xd8a1e681, 0xe7d3fbc8,
   0x21e1cde6, 0xc33707d6, 0xf4d50d87, 0x455a14ed,
   0xa9e3e905, 0xfcefa3f8, 0x676f02d9, 0x8d2a4c8a,
   0xfffa3942, 0x8771f681, 0x6d9d6122, 0xfde5380c,
   0xa4beea44, 0x4bdecfa9, 0xf6bb4b60, 0xbebfbc70,
   0x289b7ec6, 0xeaa127fa, 0xd4ef3085, 0x04881d05,
   0xd9d4d039, 0xe6db99e5, 0x1fa27cf8, 0xc4ac5665,
   0xf4292244, 0x432aff97, 0xab9423a7, 0xfc93a039,
   0x655b59c3, 0x8f0ccc92, 0xffeff47d, 0x85845dd1,
   0x6fa87e4f, 0xfe2ce6e0, 0xa3014314, 0x4e0811a1,
   0xf7537e82, 0xbd3af235, 0x2ad7d2bb, 0xeb86d391]

/-- The 64 MD5 per-step rotation amounts. -/
def md5S : List Nat :=
  [7, 12, 17, 22, 7, 12, 17, 22, 7, 12, 17, 22, 7, 12, 17, 22,
   5, 9, 14, 20, 5, 9, 14, 20, 5, 9, 14, 20, 5, 9, 14, 20,
   4, 11, 16, 23, 4, 11, 16, 23, 4, 11, 16, 23, 4, 11, 16, 23,
   6, 10, 15, 21, 6, 10, 15, 21, 6, 10, 15, 21, 6, 10, 15, 21]

/-- Message word index used at MD5 step i. -/
def md5G (i : Nat) : Nat :=
  if i < 16 then i
  else if i < 32 then (5 * i + 1) % 16
  else if i < 48 then (3 * i + 5) % 16
  else (7 * i) % 16

/-- Round function used at MD5 step i. -/
def md5FF (i b c d : Nat) : Nat :=
  if i < 16 then mF b c d
  else if i < 32 then mG b c d
  else if i < 48 then mH b c d
  else mI b c d

/-- One MD5 step on the running (A, B, C, D) state. -/
def md5StepFn (m : List Nat) (st : Nat × Nat × Nat × Nat) (i : Nat) :
    Nat × Nat × Nat × Nat :=
  let a := st.1
  let b := st.2.1
  let c := st.2.2.1
  let d := st.2.2.2
  let f := (md5FF i b c d + a + md5K.getD i 0 + m.getD (md5G i) 0) % 4294967296
  (d, (b + rotl32 f (md5S.getD i 0)) % 4294967296, b, c)

/-- Little-endian byte decomposition of a 32-bit word. -/
def wordLEBytes (x : Nat) : List Nat :=
  [x % 256, x / 256 % 256, x / 65536 % 256, x / 16777216 % 256]

/-- Little-endian byte decomposition of the 64-bit message bit length. -/
def wordLEBytes64 (x : Nat) : List Nat :=
  [x % 256, x / 256 % 256, x / 65536 % 256, x / 16777216 % 256,
   x / 4294967296 % 256, x / 1099511627776 % 256,
   x / 281474976710656 % 256, x / 72057594037927936 % 256]

/-- MD5 padding: a 0x80 byte, zeros up to 56 modulo 64, then the bit length.
The zero count is (55 - len) modulo 64, computed as (64 + 55 - len % 64) % 64
so the natural-number subtraction never truncates (len % 64 is at most 63). -/
def md5Pad (msg : List Nat) : List Nat :=
  let len := msg.length
  let bitLen := (len * 8) % 18446744073709551616
  let padZeros := (64 + 55 - len % 64) % 64
  msg ++ [128] ++ List.replicate padZeros 0 ++ wordLEBytes64 bitLen

/-- Split a byte list into 64-byte chunks. -/
def chunks64 (l : List Nat) : List (List Nat) :=
  if h : l.isEmpty then []
  else l.take 64 :: chunks64 (l.drop 64)
termination_by l.length
decreasing_by
  simp only [List.length_drop]
  have hpos : 0 < l.length := by
    cases l with
    | nil => simp at h
    | cons a t => simp
  omega

/-- The 16 little-endian 32-bit message words of one 64-byte chunk. -/
def chunkWords (chunk : List Nat) : List Nat :=
  (List.range 16).map (fun j =>
    chunk.getD (4 * j) 0 + chunk.getD (4 * j + 1) 0 * 256 +
      chunk.getD (4 * j + 2) 0 * 65536 + chunk.getD (4 * j + 3) 0 * 16777216)

/-- Process one MD5 chunk: 64 steps, then add the result into the state. -/
def md5ProcessChunk (st : Nat × Nat × Nat × Nat) (chunk : List Nat) :
    Nat × Nat × Nat × Nat :=
  let m := chunkWords chunk
  let r := (List.range 64).foldl (md5StepFn m) st
  ((st.1 + r.1) % 4294967296, (st.2.1 + r.2.1) % 4294967296,
   (st.2.2.1 + r.2.2.1) % 4294967296, (st.2.2.2 + r.2.2.2) % 4294967296)

/-- The MD5 initial state. -/
def md5Init : Nat × Nat × Nat × Nat :=
  (0x67452301, 0xefcdab89, 0x98badcfe, 0x10325476)

/-- The four 32-bit MD5 state words of a byte message. -/
def md5Words (msg : List Nat) : Nat × Nat × Nat × Nat :=
  (chunks64 (md5Pad msg)).foldl md5ProcessChunk md5Init

/-- The 16-byte MD5 digest of a byte message, little-endian per word. -/
def md5Bytes (msg : List Nat) : List Nat :=
  wordLEBytes (md5Words msg).1 ++ wordLEBytes (md5Words msg).2.1 ++
    wordLEBytes (md5Words msg).2.2.1 ++ wordLEBytes (md5Words msg).2.2.2

/-- The MD5 digest rendered as 32 lowercase hex characters. -/
def md5Hex (msg : List Nat) : String :=
  bytesToHex (md5Bytes msg)

/-- Modelled from the spec: the Credential Encoder (spec 4.3), absent from
this repository because it lives in the external go-netgear library, is the
pure function interleaving password and challenge characters and applying the
deterministic one-way MD5 hash, rendered as lowercase hex. -/
def encodeCredential (password challenge : String) : String :=
  md5Hex (utf8Bytes (String.mk (interleave password.data challenge.data)))

/-- Membership in the lowercase hexadecimal alphabet: a decimal digit or a
letter between a and f. -/
def isLowerHexDigit (c : Char) : Bool :=
  (48 ≤ c.toNat && c.toNat ≤ 57) || (97 ≤ c.toNat && c.toNat ≤ 102)

/-- Status of a POE port, as the pkg/netgear client declares it. -/
structure POEPortStatus where
  PortID : Int
  PortName : String
  Status : String
  PowerClass : String
  VoltageV : Float
  CurrentMA : Float
  PowerW : Float
  TemperatureC : Float
  ErrorStatus : String

/-- Configuration of a POE port, as the pkg/netgear client declares it. -/
structure POEPortSetting where
  PortID : Int
  Enabled : Bool
  Mode : String
  Priority : String
  PowerLimitW : Float

namespace POEInterface

/-- Embeds POEInterface.GetStatus: run PoeStatusCommand for the host (its
outcome given as runErr); wrap a failure, and on success return the empty
slice with no error, the data having gone to stdout only. -/
def GetStatus (host : String) (runErr : Option String) :
    Except String (List POEPortStatus) :=
  match runErr with
  | some e => Except.error ("failed to get POE status: " ++ e)
  | none => Except.ok []

/-- Embeds POEInterface.GetSettings: run PoeShowSettingsCommand for the host
(its outcome given as runErr); wrap a failure, and on success return the empty
slice with no error. -/
def GetSettings (host : String) (runErr : Option String) :
    Except String (List POEPortSetting) :=
  match runErr with
  | some e => Except.error ("failed to get POE settings: " ++ e)
  | none => Except.ok []

end POEInterface

/-- The go-netgear output formats the examples use. -/
inductive OutputFormat where
  | JsonFormat : OutputFormat
  | MarkdownFormat : OutputFormat
deriving DecidableEq

/-- The shared global options, restricted to the two fields validateToken
touches. -/
structure GlobalOptions where
  Verbose : Bool
  OutputFormat : OutputFormat

/-- Everything observable about one validateToken call: its verdict, the
options in force while the probe ran, and the options left behind. -/
structure ValidateTokenResult where
  valid : Bool
  probeOpts : GlobalOptions
  finalOpts : GlobalOptions

/-- Embeds validateToken's handling of the shared globalOpts: save Verbose and
OutputFormat, overwrite them with false/Markdown for the probe, restore them
after the probe returns, then classify the probe error. -/
def validateToken (opts : GlobalOptions) (probeErr : Option String) :
    ValidateTokenResult :=
  let savedVerbose := opts.Verbose
  let savedFormat := opts.OutputFormat
  let runOpts : GlobalOptions :=
    { Verbose := false, OutputFormat := OutputFormat.MarkdownFormat }
  let restoredOpts : GlobalOptions :=
    { runOpts with Verbose := savedVerbose, OutputFormat := savedFormat }
  let valid :=
    match probeErr with
    | none => true
    | some e => !indicatesLoginRequired e
  { valid := valid, probeOpts := runOpts, finalOpts := restoredOpts }

theorem adlerStep_lt (ab : Nat × Nat) (x : Nat) :
    (adlerStep ab x).1 < 65521 ∧ (adlerStep ab x).2 < 65521 := by
  refine ⟨Nat.mod_lt _ (by omega), Nat.mod_lt _ (by omega)⟩

theorem adler_foldl_lt (l : List Nat) (ab : Nat × Nat)
    (h1 : ab.1 < 65521) (h2 : ab.2 < 65521) :
    (l.foldl adlerStep ab).1 < 65521 ∧ (l.foldl adlerStep ab).2 < 65521 := by
  induction l generalizing ab with
  | nil => exact ⟨h1, h2⟩
  | cons x xs ih =>
      exact ih (adlerStep ab x) (adlerStep_lt ab x).1 (adlerStep_lt ab x).2

theorem adler32_lt (s : String) : adler32 s < 4294967296 := by
  have h := adler_foldl_lt (utf8Bytes s) (1, 0) (by omega) (by omega)
  unfold adler32
  omega

theorem hexDigit_inj_fin : ∀ i j : Fin 16, hexDigit i.val = hexDigit j.val → i = j := by
  decide

theorem hexDigit_inj (a b : Nat) (ha : a < 16) (hb : b < 16)
    (h : hexDigit a = hexDigit b) : a = b := by
  have := hexDigit_inj_fin ⟨a, ha⟩ ⟨b, hb⟩ h
  simpa using congrArg Fin.val this

theorem tokenHash_inj (h1 h2 : Nat) (hb1 : h1 < 4294967296) (hb2 : h2 < 4294967296)
    (he : bytesToHex (hashHexBytes h1) = bytesToHex (hashHexBytes h2)) : h1 = h2 := by
  simp only [bytesToHex, hashHexBytes, byteToHex, List.foldr, List.cons_append,
    List.nil_append] at he
  injection he with hd
  simp only [List.cons.injEq, and_true] at hd
  obtain ⟨e1, e2, e3, e4, e5, e6, e7, e8⟩ := hd
  have d1 := hexDigit_inj _ _ (Nat.mod_lt _ (by omega)) (Nat.mod_lt _ (by omega)) e1
  have d2 := hexDigit_inj _ _ (Nat.mod_lt _ (by omega)) (Nat.mod_lt _ (by omega)) e2
  have d3 := hexDigit_inj _ _ (Nat.mod_lt _ (by omega)) (Nat.mod_lt _ (by omega)) e3
  have d4 := hexDigit_inj _ _ (Nat.mod_lt _ (by omega)) (Nat.mod_lt _ (by omega)) e4
  have d5 := hexDigit_inj _ _ (Nat.mod_lt _ (by omega)) (Nat.mod_lt _ (by omega)) e5
  have d6 := hexDigit_inj _ _ (Nat.mod_lt _ (by omega)) (Nat.mod_lt _ (by omega)) e6
  have d7 := hexDigit_inj _ _ (Nat.mod_lt _ (by omega)) (Nat.mod_lt _ (by omega)) e7
  have d8 := hexDigit_inj _ _ (Nat.mod_lt _ (by omega)) (Nat.mod_lt _ (by omega)) e8
  omega

theorem string_data_append (a b : String) : (a ++ b).data = a.data ++ b.data := rfl

theorem string_append_left_cancel (a b c : String) (h : a ++ b = a ++ c) : b = c := by
  have hd : a.data ++ b.data = a.data ++ c.data := by
    rw [← string_data_append, ← string_data_append, h]
  exact String.ext (List.append_cancel_left hd)

/-- C1: when the first run of the operation fails with an error classified as
session-expiry and no login has been performed yet in this run, handleAuthError
removes the cached token of the host, performs exactly one re-authentication
(one performLogin invocation, here succeeding on its first network call),
re-runs the closure exactly once, and returns that second run's result
unchanged; the network calls are the failed op, the login, and the second op. -/
theorem handleAuthError_expiry_single_reauth
    (env : Env) (w : World) (e : String)
    (hla : w.loginAttempted = false)
    (hop : env.opResult w.opCount = some e)
    (hcls : indicatesLoginRequired e = true)
    (hpw : ¬ env.password = "")
    (hlogin : env.loginResult w.loginCount = none) :
    (handleAuthError env w).1 = env.opResult (w.opCount + 1) ∧
    (handleAuthError env w).2.opCount = w.opCount + 2 ∧
    (handleAuthError env w).2.loginCount = w.loginCount + 1 ∧
    (handleAuthError env w).2.performLoginCalls = w.performLoginCalls + 1 ∧
    (handleAuthError env w).2.fs (tokenFilePath env.tmpDir env.host) = false ∧
    (handleAuthError env w).2.trace =
      w.trace ++ [NetCall.opCall, NetCall.loginCall, NetCall.opCall] ∧
    (handleAuthError env w).2.loginAttempted = true := by
  simp [handleAuthError, runOp, removeToken, removeTokenFS, performLogin,
    loginAttemptLoop, retryDelays, hop, hcls, hla, hlogin, hpw]

/-- Witness for C1: a switch whose first op call reports "no session", whose
login succeeds, and whose second op call succeeds. -/
theorem handleAuthError_expiry_single_reauth_witness :
    envW1.opResult 0 = some "no session" ∧
    indicatesLoginRequired "no session" = true ∧
    (¬ envW1.password = "") ∧
    envW1.loginResult 0 = none ∧
    ((handleAuthError envW1 worldW1).1 = envW1.opResult 1 ∧
      (handleAuthError envW1 worldW1).2.opCount = 2 ∧
      (handleAuthError envW1 worldW1).2.loginCount = 1 ∧
      (handleAuthError envW1 worldW1).2.performLoginCalls = 1 ∧
      (handleAuthError envW1 worldW1).2.fs (tokenFilePath "/tmp" "switch-a") = false ∧
      (handleAuthError envW1 worldW1).2.trace =
        [NetCall.opCall, NetCall.loginCall, NetCall.opCall] ∧
      (handleAuthError envW1 worldW1).2.loginAttempted = true) :=
  ⟨rfl, by decide, by decide, rfl,
   handleAuthError_expiry_single_reauth envW1 worldW1 "no session" rfl rfl
     (by decide) (by decide) rfl⟩

/-- C6: the cache entry path is a stable, deterministic function of the host:
two calls of getTokenPath on the same arguments agree, the path embeds the
Adler-32 hash of the host rendered as fixed-width lowercase hex, and two hosts
with distinct hashes map to distinct paths. -/
theorem getTokenPath_stable_hash_distinct
    (tmpDir configDir host h1 h2 : String)
    (hne : adler32 h1 ≠ adler32 h2) :
    getTokenPath tmpDir configDir host = getTokenPath tmpDir configDir host ∧
    getTokenPath tmpDir configDir host =
      (if configDir = "" then tmpDir else configDir) ++ "/.config/ntgrrc" ++ "/token-" ++
        bytesToHex (hashHexBytes (adler32 host)) ∧
    getTokenPath tmpDir configDir h1 ≠ getTokenPath tmpDir configDir h2 := by
  refine ⟨rfl, rfl, ?_⟩
  intro heq
  have e1 : getTokenPath tmpDir configDir h1 =
      (if configDir = "" then tmpDir else configDir) ++ "/.config/ntgrrc" ++ "/token-" ++
        bytesToHex (hashHexBytes (adler32 h1)) := rfl
  have e2 : getTokenPath tmpDir configDir h2 =
      (if configDir = "" then tmpDir else configDir) ++ "/.config/ntgrrc" ++ "/token-" ++
        bytesToHex (hashHexBytes (adler32 h2)) := rfl
  rw [e1, e2] at heq
  have hhex := string_append_left_cancel _ _ _ heq
  exact hne (tokenHash_inj _ _ (adler32_lt h1) (adler32_lt h2) hhex)

/-- Witness for C6 at concrete hosts with distinct Adler-32 hashes. -/
theorem getTokenPath_stable_hash_distinct_witness :
    adler32 "switch-a" ≠ adler32 "switch-b" ∧
    getTokenPath "/tmp" "" "switch-a" ≠ getTokenPath "/tmp" "" "switch-b" :=
  ⟨by decide,
   (getTokenPath_stable_hash_distinct "/tmp" "" "switch-a" "switch-a" "switch-b"
      (by decide)).2.2⟩

/-- C7: after removeToken deletes the cached token file of a host (a deletion
that also succeeds when no entry exists, since the file system function is
total and os.Remove's error is discarded), hasValidToken reports no cached
token for that host, whatever the prior file system held. -/
theorem removeToken_then_hasValidToken_false
    (tmpDir address : String) (fs : String → Bool) :
    hasValidTokenFS tmpDir address (removeTokenFS tmpDir address fs) = false := by
  simp [hasValidTokenFS, removeTokenFS]

/-- The login attempt loop never issues op calls, never re-enters performLogin
and never touches the file system. -/
theorem loginAttemptLoop_frame (env : Env) (ds : List Nat) (w : World) :
    (loginAttemptLoop env ds w).2.opCount = w.opCount ∧
    (loginAttemptLoop env ds w).2.performLoginCalls = w.performLoginCalls ∧
    (loginAttemptLoop env ds w).2.fs = w.fs := by
  induction ds generalizing w with
  | nil =>
      rw [loginAttemptLoop]
      cases h : env.loginResult w.loginCount <;> simp [h]
  | cons d rest ih =>
      rw [loginAttemptLoop]
      cases h : env.loginResult w.loginCount with
      | none => simp [h]
      | some e =>
          simp only [h]
          exact ih _

/-- performLogin issues no op calls, counts itself exactly once and leaves the
file system alone. -/
theorem performLogin_frame (env : Env) (w : World) :
    (performLogin env w).2.opCount = w.opCount ∧
    (performLogin env w).2.performLoginCalls = w.performLoginCalls + 1 ∧
    (performLogin env w).2.fs = w.fs := by
  unfold performLogin
  by_cases hp : env.password = ""
  · rw [if_pos hp]
    exact ⟨rfl, rfl, rfl⟩
  · rw [if_neg hp]
    simpa using loginAttemptLoop_frame env retryDelays
      { w with performLoginCalls := w.performLoginCalls + 1 }

/-- One handleAuthError call runs the closure at most twice and enters
performLogin at most once. -/
theorem handleAuthError_bounds (env : Env) (w : World) :
    (handleAuthError env w).2.opCount ≤ w.opCount + 2 ∧
    (handleAuthError env w).2.performLoginCalls ≤ w.performLoginCalls + 1 := by
  unfold handleAuthError
  cases hop : env.opResult w.opCount with
  | none => simp [runOp, hop]
  | some e =>
      simp only [runOp, hop]
      by_cases hc : indicatesLoginRequired e
      · rw [if_pos hc]
        by_cases hla : w.loginAttempted
        · simp [hla]
        · simp only [hla, Bool.false_eq_true, if_false]
          have hfr := performLogin_frame env (removeToken env
            { loginAttempted := false, fs := w.fs, opCount := w.opCount + 1,
              loginCount := w.loginCount, probeCount := w.probeCount,
              performLoginCalls := w.performLoginCalls,
              trace := w.trace ++ [NetCall.opCall], sleeps := w.sleeps })
          split
          · rename_i le w3 heq
            rw [heq] at hfr
            simp only [removeToken] at hfr
            obtain ⟨ho, hp2, -⟩ := hfr
            dsimp only at ho hp2 ⊢
            omega
          · rename_i w3 heq
            rw [heq] at hfr
            simp only [removeToken] at hfr
            obtain ⟨ho, hp2, -⟩ := hfr
            dsimp only [runOp] at ho hp2 ⊢
            omega
      · simp [hc]

/-- C2 (amended): handleAuthError never performs more than one
re-authentication + retry cycle per operation call (at most two closure runs
and at most one performLogin invocation); but when the retried operation fails
again — with a session-expiry error or any other — that error is returned
unmodified rather than being relabelled, and the
"authentication failed even after re-login" error arises instead on the
no-retry path taken whenever loginAttempted is already set when a
session-expiry error is seen. -/
theorem handleAuthError_single_cycle (env : Env) (w : World) :
    (handleAuthError env w).2.opCount ≤ w.opCount + 2 ∧
    (handleAuthError env w).2.performLoginCalls ≤ w.performLoginCalls + 1 ∧
    (∀ e e2, w.loginAttempted = false → env.opResult w.opCount = some e →
      indicatesLoginRequired e = true → (¬ env.password = "") →
      env.loginResult w.loginCount = none →
      env.opResult (w.opCount + 1) = some e2 →
      (handleAuthError env w).1 = some e2) ∧
    (∀ e, w.loginAttempted = true → env.opResult w.opCount = some e →
      indicatesLoginRequired e = true →
      (handleAuthError env w).1 =
        some ("authentication failed even after re-login: " ++ e)) := by
  refine ⟨(handleAuthError_bounds env w).1, (handleAuthError_bounds env w).2, ?_, ?_⟩
  · intro e e2 hla hop hcls hpw hlogin hop2
    simp [handleAuthError, runOp, removeToken, removeTokenFS, performLogin,
      loginAttemptLoop, retryDelays, hop, hcls, hla, hlogin, hpw, hop2]
  · intro e hla hop hcls
    simp [handleAuthError, runOp, hop, hcls, hla]

/-- Counterexample for C2 as stated: on a switch answering "no session" to
every operation (login succeeding), the wrapper re-authenticates once, the
retried operation fails again with the session-expiry error, and the wrapper
returns that raw error — not an authentication-failed error (its text does not
even contain "authentication failed"). -/
theorem handleAuthError_retry_error_unwrapped_cex :
    (handleAuthError envC2 initialWorld).1 = some "no session" ∧
    stringsContains "no session" "authentication failed" = false := by
  exact ⟨rfl, by decide⟩

/-- Witness for C2 (amended), applying the raw-return clause on the mocked
always-expired switch. -/
theorem handleAuthError_single_cycle_witness :
    initialWorld.loginAttempted = false ∧
    envC2.opResult 0 = some "no session" ∧
    indicatesLoginRequired "no session" = true ∧
    (¬ envC2.password = "") ∧
    envC2.loginResult 0 = none ∧
    envC2.opResult 1 = some "no session" ∧
    (handleAuthError envC2 initialWorld).1 = some "no session" :=
  ⟨rfl, rfl, by decide, by decide, rfl, rfl,
   (handleAuthError_single_cycle envC2 initialWorld).2.2.1 "no session" "no session"
     rfl rfl (by decide) (by decide) rfl rfl⟩

/-- Counterexample for C3 as stated: with a cached token present,
ensureAuthenticated does issue a network request before any operation — its
trace already holds the validation probe, so authentication setup is not free
of pre-flight switch requests. -/
theorem ensureAuthenticated_preflight_probe_cex :
    hasValidToken envC3 initialWorld = true ∧
    (ensureAuthenticated envC3 initialWorld).1 = none ∧
    (ensureAuthenticated envC3 initialWorld).2.trace = [NetCall.probeCall] := by
  exact ⟨rfl, rfl, rfl⟩

/-- C3 (amended): when a cached token exists, ensureAuthenticated issues
exactly one pre-flight validation probe; if the probe succeeds, it reports
success with no login attempt and no change to the cache. -/
theorem ensureAuthenticated_cached_probe (env : Env) (w : World)
    (hcache : hasValidToken env w = true)
    (hprobe : env.probeResult w.probeCount = none) :
    (ensureAuthenticated env w).1 = none ∧
    (ensureAuthenticated env w).2.probeCount = w.probeCount + 1 ∧
    (ensureAuthenticated env w).2.trace = w.trace ++ [NetCall.probeCall] ∧
    (ensureAuthenticated env w).2.loginCount = w.loginCount ∧
    (ensureAuthenticated env w).2.performLoginCalls = w.performLoginCalls ∧
    (ensureAuthenticated env w).2.fs = w.fs := by
  simp [ensureAuthenticated, validateTokenRun, hcache, hprobe]

/-- Witness for C3 (amended) on the all-healthy mocked switch. -/
theorem ensureAuthenticated_cached_probe_witness :
    hasValidToken envC3 initialWorld = true ∧
    envC3.probeResult 0 = none ∧
    ((ensureAuthenticated envC3 initialWorld).1 = none ∧
      (ensureAuthenticated envC3 initialWorld).2.probeCount = 1 ∧
      (ensureAuthenticated envC3 initialWorld).2.trace = [NetCall.probeCall] ∧
      (ensureAuthenticated envC3 initialWorld).2.loginCount = 0 ∧
      (ensureAuthenticated envC3 initialWorld).2.performLoginCalls = 0 ∧
      (ensureAuthenticated envC3 initialWorld).2.fs = initialWorld.fs) :=
  ⟨rfl, rfl, ensureAuthenticated_cached_probe envC3 initialWorld rfl rfl⟩

/-- Counterexample for C4 as stated: on a switch that declines the credential
on every login attempt, performLogin does not return after the first
rejection: it issues four login calls, sleeping 200ms, 500ms and 1000ms
between them, before giving up. -/
theorem performLogin_rejection_retried_cex :
    (performLogin envC4 initialWorld).1 =
      some "login failed after 4 attempts: authentication rejected" ∧
    (performLogin envC4 initialWorld).2.loginCount = 4 ∧
    (performLogin envC4 initialWorld).2.sleeps = [200, 500, 1000] := by
  refine ⟨by decide, by decide, by decide⟩

/-- C4 (amended): performLogin applies the bounded 200/500/1000ms backoff
uniformly to every login failure — it never inspects the error, so a
credential rejection is retried exactly like a transient network failure, four
attempts in all, and only then surfaces the wrapped last error. -/
theorem performLogin_uniform_backoff (env : Env) (w : World)
    (hpw : ¬ env.password = "")
    (e0 e1 e2 e3 : String)
    (h0 : env.loginResult w.loginCount = some e0)
    (h1 : env.loginResult (w.loginCount + 1) = some e1)
    (h2 : env.loginResult (w.loginCount + 2) = some e2)
    (h3 : env.loginResult (w.loginCount + 3) = some e3) :
    (performLogin env w).1 = some ("login failed after 4 attempts: " ++ e3) ∧
    (performLogin env w).2.loginCount = w.loginCount + 4 ∧
    (performLogin env w).2.sleeps = w.sleeps ++ [200, 500, 1000] ∧
    (performLogin env w).2.loginAttempted = w.loginAttempted := by
  simp [performLogin, loginAttemptLoop, retryDelays, hpw, h0, h1, h2, h3,
    List.append_assoc]

/-- Witness for C4 (amended) on the always-rejecting switch. -/
theorem performLogin_uniform_backoff_witness :
    (¬ envC4.password = "") ∧
    envC4.loginResult 0 = some "authentication rejected" ∧
    envC4.loginResult 1 = some "authentication rejected" ∧
    envC4.loginResult 2 = some "authentication rejected" ∧
    envC4.loginResult 3 = some "authentication rejected" ∧
    ((performLogin envC4 initialWorld).1 =
        some ("login failed after 4 attempts: " ++ "authentication rejected") ∧
      (performLogin envC4 initialWorld).2.loginCount = 4 ∧
      (performLogin envC4 initialWorld).2.sleeps = [200, 500, 1000] ∧
      (performLogin envC4 initialWorld).2.loginAttempted = false) :=
  ⟨by decide, rfl, rfl, rfl, rfl,
   performLogin_uniform_backoff envC4 initialWorld (by decide)
     "authentication rejected" "authentication rejected" "authentication rejected"
     "authentication rejected" rfl rfl rfl rfl⟩

/-- C5: an operation error is classified as session-expiry exactly when its
text contains one of the expiry-indicating substrings ("no content", "login",
"no session"); any error not so classified is returned to the caller
immediately and unmodified — no token removal, no re-login, no retry. -/
theorem handleAuthError_nonsession_passthrough (env : Env) (w : World) (e : String)
    (hop : env.opResult w.opCount = some e)
    (hcls : indicatesLoginRequired e = false) :
    indicatesLoginRequired e =
      (stringsContains e "no content" || stringsContains e "login" ||
        stringsContains e "no session") ∧
    (handleAuthError env w).1 = some e ∧
    (handleAuthError env w).2.opCount = w.opCount + 1 ∧
    (handleAuthError env w).2.loginCount = w.loginCount ∧
    (handleAuthError env w).2.performLoginCalls = w.performLoginCalls ∧
    (handleAuthError env w).2.fs = w.fs ∧
    (handleAuthError env w).2.trace = w.trace ++ [NetCall.opCall] ∧
    (handleAuthError env w).2.loginAttempted = w.loginAttempted := by
  refine ⟨rfl, ?_⟩
  simp [handleAuthError, runOp, hop, hcls]

/-- Witness for C5 at a non-session error. -/
theorem handleAuthError_nonsession_passthrough_witness :
    envC5.opResult 0 = some "connection refused" ∧
    indicatesLoginRequired "connection refused" = false ∧
    ((handleAuthError envC5 initialWorld).1 = some "connection refused" ∧
      (handleAuthError envC5 initialWorld).2.opCount = 1 ∧
      (handleAuthError envC5 initialWorld).2.loginCount = 0 ∧
      (handleAuthError envC5 initialWorld).2.performLoginCalls = 0 ∧
      (handleAuthError envC5 initialWorld).2.fs = initialWorld.fs ∧
      (handleAuthError envC5 initialWorld).2.trace = [NetCall.opCall] ∧
      (handleAuthError envC5 initialWorld).2.loginAttempted = false) :=
  ⟨rfl, by decide,
   (handleAuthError_nonsession_passthrough envC5 initialWorld "connection refused"
      rfl (by decide)).2⟩

/-- Every hex digit produced for a nibble is a lowercase hex character. -/
theorem hexDigit_lower (n : Nat) (h : n < 16) : isLowerHexDigit (hexDigit n) = true := by
  have hall : ∀ i : Fin 16, isLowerHexDigit (hexDigit i.val) = true := by decide
  exact hall ⟨n, h⟩

/-- The char list behind bytesToHex has two characters per byte. -/
theorem foldrHex_length (l : List Nat) :
    (l.foldr (fun b acc => byteToHex b ++ acc) []).length = 2 * l.length := by
  induction l with
  | nil => rfl
  | cons b t ih =>
      simp only [List.foldr_cons, List.length_append, ih, List.length_cons]
      simp [byteToHex]
      omega

/-- Every character behind bytesToHex is lowercase hex. -/
theorem foldrHex_all (l : List Nat) :
    ((l.foldr (fun b acc => byteToHex b ++ acc) []).all isLowerHexDigit) = true := by
  induction l with
  | nil => rfl
  | cons b t ih =>
      simp only [List.foldr_cons, List.all_append, ih, Bool.and_true]
      simp [byteToHex, hexDigit_lower _ (Nat.mod_lt _ (by omega))]

/-- bytesToHex yields two characters per byte. -/
theorem bytesToHex_length (l : List Nat) : (bytesToHex l).length = 2 * l.length :=
  foldrHex_length l

/-- An MD5 digest always holds sixteen bytes. -/
theorem md5Bytes_length (msg : List Nat) : (md5Bytes msg).length = 16 := by
  simp [md5Bytes, wordLEBytes]

/-- C8: the Credential Encoder is a deterministic pure function of password
and challenge — two invocations on identical inputs produce byte-for-byte the
same digest, that digest is exactly the MD5 hash of the character-interleaving
of password and challenge, and it is rendered as 32 lowercase hex characters. -/
theorem encodeCredential_deterministic_md5hex (p c : String) :
    encodeCredential p c = encodeCredential p c ∧
    encodeCredential p c =
      md5Hex (utf8Bytes (String.mk (interleave p.data c.data))) ∧
    (encodeCredential p c).length = 32 ∧
    ((encodeCredential p c).data.all isLowerHexDigit) = true := by
  refine ⟨rfl, rfl, ?_, ?_⟩
  · show (bytesToHex (md5Bytes (utf8Bytes (String.mk (interleave p.data c.data))))).length = 32
    rw [bytesToHex_length, md5Bytes_length]
  · exact foldrHex_all (md5Bytes (utf8Bytes (String.mk (interleave p.data c.data))))

/-- C9: whenever the underlying library command succeeds, GetStatus and
GetSettings return the empty slice with no error; and on every outcome, a
successful structured result is always the empty slice — the return value
never carries port data. -/
theorem getStatus_getSettings_empty (host : String) :
    POEInterface.GetStatus host none = Except.ok [] ∧
    POEInterface.GetSettings host none = Except.ok [] ∧
    (∀ err l, POEInterface.GetStatus host err = Except.ok l → l = []) ∧
    (∀ err l, POEInterface.GetSettings host err = Except.ok l → l = []) := by
  refine ⟨rfl, rfl, ?_, ?_⟩
  · intro err l h
    cases err with
    | none =>
        injection h with h
        exact h.symm
    | some e => exact absurd h (by simp [POEInterface.GetStatus])
  · intro err l h
    cases err with
    | none =>
        injection h with h
        exact h.symm
    | some e => exact absurd h (by simp [POEInterface.GetSettings])

/-- Witness for C9 at a concrete host and a successful command run. -/
theorem getStatus_getSettings_empty_witness :
    POEInterface.GetStatus "switch-a" none = Except.ok [] ∧
    ([] : List POEPortStatus) = [] :=
  ⟨(getStatus_getSettings_empty "switch-a").1,
   (getStatus_getSettings_empty "switch-a").2.2.1 none [] (by rfl)⟩

/-- C10: validateToken leaves the shared global options as it found them: on
the token-valid path and the token-invalid path alike, Verbose and
OutputFormat equal their values from before the call, even though the probe
itself ran under the temporary overwrite (Verbose false, Markdown format). -/
theorem validateToken_restores_globalOpts (opts : GlobalOptions) (probeErr : Option String) :
    (validateToken opts probeErr).finalOpts.Verbose = opts.Verbose ∧
    (validateToken opts probeErr).finalOpts.OutputFormat = opts.OutputFormat ∧
    (validateToken opts probeErr).probeOpts =
      { Verbose := false, OutputFormat := OutputFormat.MarkdownFormat } := by
  cases probeErr <;> simp [validateToken]
